import Mathlib

/-!
Verification of the remote-state synchronization and debounced
feedback-invalidation core of the `companion-module-leolabs-ableset`
module (`src/main.ts`, `src/enums.ts`), as a shallow embedding in Lean.

JavaScript runtime values are modelled by `JsVal`; numbers are modelled as
`Option Int`, `none` standing for `NaN` (all numeric values the verified
claims involve are integral).  The host's variable store is modelled as an
association list with last-write-wins lookup.  The two debounce primitives
are imported by `src/main.ts` from `src/utils/debounce`, a file that is not
part of the available sources; they are modelled from the specification
(sections 4.1 and 4.2) and marked as such in their doc comments.
-/

namespace AbleSet

/-- JavaScript runtime values as they occur in the module's variable store
and in OSC message arguments.  A number is `Option Int`, with `none` playing
the role of `NaN`. -/
inductive JsVal where
  | undef : JsVal
  | num : Option Int → JsVal
  | str : String → JsVal
  | bool : Bool → JsVal
deriving DecidableEq

/-- JavaScript numeric parsing of a string, on the fragment the module can
encounter: the empty string parses to `0`, a digit string parses to its
value, and everything else is `NaN` (`none`). -/
def jsParseNumber (s : String) : Option Int :=
  if s = "" then some 0
  else if s.data.all Char.isDigit then
    some ((s.data.foldl (fun n c => 10 * n + (c.toNat - 48)) 0 : Nat) : Int)
  else none

/-- JavaScript `Number(x)` on the modelled values. -/
def jsToNumber : JsVal → Option Int
  | .undef => none
  | .num n => n
  | .str s => jsParseNumber s
  | .bool b => some (if b then 1 else 0)

/-- JavaScript `String(x)` on the modelled values. -/
def jsToString : JsVal → String
  | .undef => "undefined"
  | .num none => "NaN"
  | .num (some n) => toString n
  | .str s => s
  | .bool b => if b then "true" else "false"

/-- JavaScript `Boolean(x)` on the modelled values. -/
def jsToBool : JsVal → Bool
  | .undef => false
  | .num none => false
  | .num (some n) => n != 0
  | .str s => s != ""
  | .bool b => b

/-- JavaScript strict equality `===`; `NaN` is not equal to anything,
including itself, and values of different runtime types are never equal. -/
def jsStrictEq : JsVal → JsVal → Bool
  | .num (some a), .num (some b) => a == b
  | .str a, .str b => a == b
  | .bool a, .bool b => a == b
  | .undef, .undef => true
  | _, _ => false

/-- Strict equality `===` restricted to numbers, as produced by `Number(_)`
coercions; `none` (`NaN`) compares unequal to everything. -/
def jsNumEq : Option Int → Option Int → Bool
  | some a, some b => a == b
  | _, _ => false

/-- The `<` comparison on numbers; any comparison involving `NaN` is false. -/
def jsNumLt : Option Int → Option Int → Bool
  | some a, some b => decide (a < b)
  | _, _ => false

/-- The host's variable store, written by `setVariableValues` and read by
`getVariableValue`.  New bindings are prepended, so lookup returns the most
recent write, and `undefined` for a variable that was never set. -/
def VarStore := List (String × JsVal)
deriving DecidableEq

/-- `this.getVariableValue(id)`: the most recent value bound to `id`, or
`undefined` when `id` was never set. -/
def getVariableValue : VarStore → String → JsVal
  | [], _ => .undef
  | (k', v) :: rest, k => if k = k' then v else getVariableValue rest k

/-- `this.setVariableValues({...})`: merges the given bindings into the
store, later entries of the same call shadowing earlier ones. -/
def setVariableValues (s : VarStore) (pairs : List (String × JsVal)) : VarStore :=
  pairs.foldl (fun acc kv => kv :: acc) s

theorem getVariableValue_setVariableValues_not_mem
    {pairs : List (String × JsVal)} {k : String}
    (h : k ∉ pairs.map Prod.fst) (s : VarStore) :
    getVariableValue (setVariableValues s pairs) k = getVariableValue s k := by
  induction pairs generalizing s with
  | nil => rfl
  | cons kv rest ih =>
    simp only [List.map_cons, List.mem_cons, not_or] at h
    show getVariableValue (setVariableValues (kv :: s) rest) k = getVariableValue s k
    rw [ih h.2]
    show (if k = kv.1 then kv.2 else getVariableValue s k) = getVariableValue s k
    rw [if_neg h.1]

theorem getVariableValue_setVariableValues_mem
    {pairs : List (String × JsVal)} {k : String} {v : JsVal}
    (hnd : (pairs.map Prod.fst).Nodup) (hmem : (k, v) ∈ pairs) (s : VarStore) :
    getVariableValue (setVariableValues s pairs) k = v := by
  induction pairs generalizing s with
  | nil => cases hmem
  | cons kv rest ih =>
    simp only [List.map_cons, List.nodup_cons] at hnd
    show getVariableValue (setVariableValues (kv :: s) rest) k = v
    rcases List.mem_cons.mp hmem with heq | hrest
    · subst heq
      rw [getVariableValue_setVariableValues_not_mem hnd.1]
      show (if k = k then v else getVariableValue s k) = v
      rw [if_pos rfl]
    · exact ih hnd.2 hrest (kv :: s)

/-! ### The gathering debounce primitive

Modelled from the spec: `src/main.ts` imports `debounce` and `debounceGather`
from `src/utils/debounce`, a file that is absent from the sources.
`debounceGather` is modelled from spec section 4.2: `fire(key)` after an idle
period opens a window whose timer is anchored to that first call; further
calls while the window is open append the key to the pending batch if it is
not already present and do not move the timer; when the timer fires, the
action receives the accumulated ordered-unique keys and the window state is
cleared. -/

/-- Modelled from the spec: appending a key to the pending batch when it is
not already present (set semantics, insertion order preserved). -/
def gatherInsert {κ : Type} [DecidableEq κ] (acc : List κ) (k : κ) : List κ :=
  if k ∈ acc then acc else acc ++ [k]

/-- The pending batch after a sequence of keys has been fired into an open
window holding `acc`. -/
def gatherRun {κ : Type} [DecidableEq κ] (acc : List κ) (ks : List κ) : List κ :=
  ks.foldl gatherInsert acc

/-- First-occurrence deduplication: the closed form of the batch a gather
window accumulates from the empty pending state. -/
def dedupFirst {κ : Type} [DecidableEq κ] : List κ → List κ
  | [] => []
  | k :: ks => k :: dedupFirst (ks.filter (· ≠ k))
termination_by l => l.length
decreasing_by
  simp only [List.length_cons]
  exact Nat.lt_succ_of_le (List.length_filter_le _ _)

/-- The window state of the gathering debounce: the pending ordered-unique
keys and the pending timer's deadline (`none` when idle). -/
structure GatherState (κ : Type) where
  keys : List κ
  deadline : Option Nat
deriving DecidableEq

/-- The idle window state: no pending keys, no pending timer. -/
def idleGather {κ : Type} : GatherState κ := ⟨[], none⟩

/-- Modelled from the spec: `fire(key)` at time `t`.  From idle it opens a
window with deadline `t + D`; while a window is open it only accumulates the
key and leaves the deadline untouched (the timer is anchored to the first
call of the burst). -/
def gatherFire {κ : Type} [DecidableEq κ] (D : Nat) (s : GatherState κ) (t : Nat) (k : κ) :
    GatherState κ :=
  match s.deadline with
  | none => ⟨[k], some (t + D)⟩
  | some d => ⟨gatherInsert s.keys k, some d⟩

/-- A sequence of `fire` calls, each a time-key pair, applied in order. -/
def gatherFires {κ : Type} [DecidableEq κ] (D : Nat) (s : GatherState κ)
    (tks : List (Nat × κ)) : GatherState κ :=
  tks.foldl (fun s tk => gatherFire D s tk.1 tk.2) s

/-- Modelled from the spec: the timer firing at time `t`.  If `t` is the open
window's deadline, the accumulated batch is delivered downstream (`some`)
and the window state is cleared; at any other time nothing is delivered. -/
def gatherExpireAt {κ : Type} (s : GatherState κ) (t : Nat) :
    Option (List κ) × GatherState κ :=
  if s.deadline = some t then (some s.keys, ⟨[], none⟩) else (none, s)

theorem gatherRun_acc_aux {κ : Type} [DecidableEq κ] :
    ∀ (n : Nat) (ks : List κ), ks.length ≤ n → ∀ acc : List κ,
      gatherRun acc ks = acc ++ gatherRun [] (ks.filter (fun x => x ∉ acc)) := by
  intro n
  induction n with
  | zero =>
    intro ks h acc
    rw [List.length_eq_zero.mp (Nat.le_zero.mp h)]
    simp [gatherRun]
  | succ n ih =>
    intro ks h acc
    match ks with
    | [] => simp [gatherRun]
    | k :: ks' =>
      simp only [List.length_cons, Nat.succ_le_succ_iff] at h
      by_cases hk : k ∈ acc
      · have h1 : gatherRun acc (k :: ks') = gatherRun acc ks' := by
          simp only [gatherRun, List.foldl_cons, gatherInsert, if_pos hk]
        have h2 : (k :: ks').filter (fun x => x ∉ acc) = ks'.filter (fun x => x ∉ acc) := by
          simp only [List.filter_cons]
          rw [if_neg (by simp [hk])]
        rw [h1, h2, ih ks' h acc]
      · have h1 : gatherRun acc (k :: ks') = gatherRun (acc ++ [k]) ks' := by
          simp only [gatherRun, List.foldl_cons, gatherInsert, if_neg hk]
        have h2 : (k :: ks').filter (fun x => x ∉ acc) = k :: ks'.filter (fun x => x ∉ acc) := by
          simp only [List.filter_cons]
          rw [if_pos (by simp [hk])]
        have h3 : gatherRun [] (k :: ks'.filter (fun x => x ∉ acc)) =
            gatherRun [k] (ks'.filter (fun x => x ∉ acc)) := by
          simp [gatherRun, gatherInsert]
        have h4 : ks'.filter (fun x => x ∉ acc ++ [k]) =
            (ks'.filter (fun x => x ∉ acc)).filter (fun x => x ∉ [k]) := by
          rw [List.filter_filter]
          apply List.filter_congr
          intro x _
          by_cases hxa : x ∈ acc <;> by_cases hxk : x = k <;>
            simp [hxa, hxk]
        rw [h1, h2, h3, ih ks' h (acc ++ [k]), h4,
          ih (ks'.filter (fun x => x ∉ acc))
            (Nat.le_trans (List.length_filter_le _ _) h) [k],
          List.append_assoc]

theorem gatherRun_eq_append {κ : Type} [DecidableEq κ] (acc ks : List κ) :
    gatherRun acc ks = acc ++ gatherRun [] (ks.filter (fun x => x ∉ acc)) :=
  gatherRun_acc_aux ks.length ks le_rfl acc

theorem gatherRun_nil_eq_dedupFirst {κ : Type} [DecidableEq κ] (ks : List κ) :
    gatherRun [] ks = dedupFirst ks := by
  induction ks using dedupFirst.induct with
  | case1 => simp [gatherRun, dedupFirst]
  | case2 k ks ih =>
    have h1 : gatherRun ([] : List κ) (k :: ks) = gatherRun [k] ks := by
      simp [gatherRun, gatherInsert]
    rw [h1, gatherRun_eq_append [k] ks, dedupFirst]
    have h2 : ks.filter (fun x => x ∉ [k]) = ks.filter (· ≠ k) := by
      apply List.filter_congr
      intro x _
      simp
    rw [h2, ih]
    rfl

theorem mem_dedupFirst {κ : Type} [DecidableEq κ] {ks : List κ} {a : κ} :
    a ∈ dedupFirst ks ↔ a ∈ ks := by
  induction ks using dedupFirst.induct with
  | case1 => simp [dedupFirst]
  | case2 k ks ih =>
    rw [dedupFirst]
    simp only [List.mem_cons, ih, List.mem_filter]
    constructor
    · rintro (rfl | ⟨h, _⟩)
      · exact Or.inl rfl
      · exact Or.inr h
    · rintro (rfl | h)
      · exact Or.inl rfl
      · by_cases hak : a = k
        · exact Or.inl hak
        · exact Or.inr ⟨h, by simp [hak]⟩

theorem nodup_dedupFirst {κ : Type} [DecidableEq κ] (ks : List κ) :
    (dedupFirst ks).Nodup := by
  induction ks using dedupFirst.induct with
  | case1 => rw [dedupFirst]; exact List.nodup_nil
  | case2 k ks ih =>
    rw [dedupFirst]
    refine List.nodup_cons.mpr ⟨?_, ih⟩
    intro hmem
    have := List.mem_filter.mp (mem_dedupFirst.mp hmem)
    simp at this

theorem indexOf_lt_of_filter {κ : Type} [DecidableEq κ] {p : κ → Bool} :
    ∀ {l : List κ} {a b : κ}, a ∈ l.filter p → b ∈ l.filter p →
      (l.filter p).indexOf a < (l.filter p).indexOf b →
      l.indexOf a < l.indexOf b := by
  intro l
  induction l with
  | nil => intro a b ha _ _; cases ha
  | cons x l' ih =>
    intro a b ha hb hlt
    by_cases hp : p x
    · rw [List.filter_cons_of_pos hp] at ha hb hlt
      by_cases hxa : x = a
      · subst hxa
        rw [List.indexOf_cons_self] at hlt ⊢
        have hbx : b ≠ x := by
          rintro rfl
          rw [List.indexOf_cons_self] at hlt
          exact absurd hlt (Nat.lt_irrefl 0)
        rw [List.indexOf_cons_ne _ (Ne.symm hbx)]
        exact Nat.succ_pos _
      · by_cases hxb : x = b
        · subst hxb
          rw [List.indexOf_cons_self] at hlt
          exact absurd hlt (Nat.not_lt_zero _)
        · rw [List.indexOf_cons_ne _ hxa, List.indexOf_cons_ne _ hxb] at hlt
          have ha' : a ∈ l'.filter p := by
            rcases List.mem_cons.mp ha with h | h
            · exact absurd h.symm hxa
            · exact h
          have hb' : b ∈ l'.filter p := by
            rcases List.mem_cons.mp hb with h | h
            · exact absurd h.symm hxb
            · exact h
          rw [List.indexOf_cons_ne _ hxa, List.indexOf_cons_ne _ hxb]
          exact Nat.succ_lt_succ (ih ha' hb' (Nat.lt_of_succ_lt_succ hlt))
    · rw [List.filter_cons_of_neg (by simpa using hp)] at ha hb hlt
      have hxa : x ≠ a := by
        rintro rfl
        exact hp (List.of_mem_filter ha)
      have hxb : x ≠ b := by
        rintro rfl
        exact hp (List.of_mem_filter hb)
      rw [List.indexOf_cons_ne _ hxa, List.indexOf_cons_ne _ hxb]
      exact Nat.succ_lt_succ (ih ha hb hlt)

theorem pairwise_indexOf_dedupFirst {κ : Type} [DecidableEq κ] (ks : List κ) :
    (dedupFirst ks).Pairwise (fun a b => ks.indexOf a < ks.indexOf b) := by
  induction ks using dedupFirst.induct with
  | case1 => rw [dedupFirst]; exact List.Pairwise.nil
  | case2 k ks ih =>
    rw [dedupFirst]
    refine List.pairwise_cons.mpr ⟨?_, ?_⟩
    · intro b hb
      have hbk : b ≠ k := by
        have := List.mem_filter.mp (mem_dedupFirst.mp hb)
        simpa using this.2
      rw [List.indexOf_cons_self, List.indexOf_cons_ne _ (Ne.symm hbk)]
      exact Nat.succ_pos _
    · refine ih.imp_of_mem ?_
      intro a b ha hb hlt
      have ha' := mem_dedupFirst.mp ha
      have hb' := mem_dedupFirst.mp hb
      have hak : a ≠ k := by simpa using (List.mem_filter.mp ha').2
      have hbk : b ≠ k := by simpa using (List.mem_filter.mp hb').2
      rw [List.indexOf_cons_ne _ (Ne.symm hak), List.indexOf_cons_ne _ (Ne.symm hbk)]
      exact Nat.succ_lt_succ (indexOf_lt_of_filter ha' hb' hlt)

theorem gatherFires_open {κ : Type} [DecidableEq κ] (D : Nat) :
    ∀ (tks : List (Nat × κ)) (s : GatherState κ) (d : Nat),
      s.deadline = some d →
      gatherFires D s tks = ⟨gatherRun s.keys (tks.map Prod.snd), some d⟩ := by
  intro tks
  induction tks with
  | nil =>
    intro s d hd
    cases s with
    | mk keys deadline =>
      simp only at hd
      simp [gatherFires, gatherRun, hd]
  | cons tk rest ih =>
    intro s d hd
    have hfire : gatherFire D s tk.1 tk.2 = ⟨gatherInsert s.keys tk.2, some d⟩ := by
      cases s with
      | mk keys deadline =>
        simp only at hd
        simp [gatherFire, hd]
    show gatherFires D (gatherFire D s tk.1 tk.2) rest = _
    rw [hfire, ih ⟨gatherInsert s.keys tk.2, some d⟩ d rfl]
    rfl

/-! ### The module session (`src/main.ts`) -/

/-- `InstanceStatus` values the module uses (from `@companion-module/base`).
`badConfig` is a blocking configuration status; `connectionFailure` is a
transport-failure status. -/
inductive InstanceStatus where
  | ok | connecting | disconnected | badConfig | connectionFailure
deriving DecidableEq

/-- The feedback keys of `src/enums.ts` (`const enum Feedback`). -/
inductive Feedback where
  | isPlaying | isInLoop | isInActiveLoop
  | isCurrentSong | isCurrentSection
  | isQueuedSong | isQueuedSection
  | canJumpToNextSong | canJumpToPreviousSong
  | canJumpToNextSection | canJumpToPreviousSection
deriving DecidableEq

/-- The module configuration (`interface Config`). -/
structure Config where
  clientHost : String
  clientPort : String
  serverHost : String
deriving DecidableEq

/-- `makeRange(n)`: `Array(n).fill(0).map((_, i) => i)`, the list
`[0, 1, ..., n-1]` (the source's own doc comment example is off by one; the
code produces a list of length `n`). -/
def makeRange (n : Nat) : List Nat := List.range n

/-- `PRESET_COUNT` from `src/main.ts`. -/
def PRESET_COUNT : Nat := 32

/-- The state of one `ModuleInstance`: the host-visible status, the transport
flags, the watchdog bookkeeping of `init`'s closures (`isConnected`, the
debounce deadline of `handleHeartbeat`, whether the `once`-registered
`/global/isPlaying` status handler has already been consumed), the mirrored
`songs`/`sections` lists, the variable store, and the pending window of
`debouncedCheckFeedbacks`. -/
structure Session where
  config : Config
  status : InstanceStatus
  statusMessage : String
  serverBound : Bool
  clientBound : Bool
  isConnected : Bool
  isPlayingConsumed : Bool
  watchdogDeadline : Option Nat
  songs : List String
  sections : List String
  vars : VarStore
  feedbackGather : GatherState Feedback
deriving DecidableEq

/-- A fresh `ModuleInstance` as constructed: default config, empty mirrored
lists (`songs: string[] = []`, `sections: string[] = []`), nothing bound. -/
def freshSession : Session where
  config := ⟨"127.0.0.1", "39052", "127.0.0.1"⟩
  status := .connecting
  statusMessage := ""
  serverBound := false
  clientBound := false
  isConnected := false
  isPlayingConsumed := false
  watchdogDeadline := none
  songs := []
  sections := []
  vars := []
  feedbackGather := idleGather

/-- Modelled from the spec: `handleHeartbeat()` is the `fire()` of the plain
trailing-edge debounce (spec section 4.1) wrapping the declare-disconnect
action with delay 2500 ms; each call (re)schedules that action 2500 ms after
the call, cancelling any earlier schedule. -/
def handleHeartbeatFire (s : Session) (t : Nat) : Session :=
  { s with watchdogDeadline := some (t + 2500) }

/-- The debounced action of `handleHeartbeat` firing at its scheduled
deadline: declares the connection lost (`InstanceStatus.Disconnected`,
"Didn't receive a heartbeat in a while", `isConnected = false`).  At any
other time nothing fires. -/
def handleHeartbeatTimeout (s : Session) (t : Nat) : Session :=
  if s.watchdogDeadline = some t then
    { s with
      status := .disconnected
      statusMessage := "Didn't receive a heartbeat in a while"
      isConnected := false
      watchdogDeadline := none }
  else s

/-- `debouncedCheckFeedbacks`: `debounceGather`-wrapped `checkFeedbacks` with
delay 50 ms; a handler passing several keys fires them in order at the same
time. -/
def debouncedCheckFeedbacks (s : Session) (t : Nat) (keys : List Feedback) : Session :=
  { s with feedbackGather := keys.foldl (fun g k => gatherFire 50 g t k) s.feedbackGather }

/-- The variable id `` `song${i}Name` `` (1-based, as written by the
`/setlist/songs` handler for `i` in `1..PRESET_COUNT`). -/
def songNameKey (i : Nat) : String := "song" ++ toString i ++ "Name"

/-- The variable id `` `section${i}Name` ``. -/
def sectionNameKey (i : Nat) : String := "section" ++ toString i ++ "Name"

/-- The bindings written by the `/setlist/songs` handler:
`Object.fromEntries(makeRange(PRESET_COUNT).map((i) => [`song${i + 1}Name`,
String(songs[i] ?? '')]))`. -/
def songsPairs (l : List String) : List (String × JsVal) :=
  (makeRange PRESET_COUNT).map (fun i => (songNameKey (i + 1), .str (l.getD i "")))

/-- The bindings written by the `/setlist/sections` handler. -/
def sectionsPairs (l : List String) : List (String × JsVal) :=
  (makeRange PRESET_COUNT).map (fun i => (sectionNameKey (i + 1), .str (l.getD i "")))

/-- The recognized inbound OSC messages (the paths subscribed in
`initOscListeners`, plus `/heartbeat` handled in `init`), with their
arguments as received. -/
inductive OscMessage where
  | globalBeatsPosition (beats : JsVal)
  | globalHumanPosition (bars beats : JsVal)
  | globalTempo (tempo : JsVal)
  | globalIsPlaying (v : JsVal)
  | globalTimeSignature (numerator denominator : JsVal)
  | setlistName (name : JsVal)
  | setlistSongs (songs : List String)
  | setlistSections (sections : List String)
  | setlistActiveSongName (v : JsVal)
  | setlistActiveSongIndex (v : JsVal)
  | setlistActiveSectionName (v : JsVal)
  | setlistActiveSectionIndex (v : JsVal)
  | setlistQueuedName (qSong qSection : JsVal)
  | setlistQueuedIndex (qSong qSection : JsVal)
  | setlistNextSongName (v : JsVal)
  | setlistNextSongIndex (v : JsVal)
  | setlistLoopEnabled (v : JsVal)
  | setlistLoopStart (v : JsVal)
  | setlistLoopEnd (v : JsVal)
  | setlistIsCountingIn (v : JsVal)
  | playaudio12IsConnected (v : JsVal)
  | playaudio12Scene (v : JsVal)
  | settingsAutoplay (v : JsVal)
  | settingsSafeMode (v : JsVal)
  | settingsAlwaysStopOnSongEnd (v : JsVal)
  | settingsAutoJumpToNextSong (v : JsVal)
  | settingsAutoLoopCurrentSection (v : JsVal)
  | settingsCountIn (v : JsVal)
  | settingsCountInSoloClick (v : JsVal)
  | settingsCountInDuration (v : JsVal)
  | settingsJumpMode (v : JsVal)
  | heartbeat
deriving DecidableEq

/-- The `${bars ?? 0}.${beats ?? 0}` template of the `/global/humanPosition`
handler: `??` substitutes 0 for an absent (undefined) argument. -/
def humanPositionText (bars beats : JsVal) : String :=
  (if bars = .undef then "0" else jsToString bars) ++ "." ++
    (if beats = .undef then "0" else jsToString beats)

/-- Handling one recognized inbound OSC message at time `t`: the per-path
handlers registered in `initOscListeners`, the `once`-registered
`/global/isPlaying` status handler, and the `/heartbeat` handler from
`init`.  Each branch is the source handler written field-wise: the variable
writes, the `debouncedCheckFeedbacks` keys that handler passes, and (for
`/global/isPlaying` and `/heartbeat` only) the connection bookkeeping. -/
def handleOsc (s : Session) (t : Nat) (m : OscMessage) : Session :=
  match m with
  | .globalBeatsPosition beats =>
    debouncedCheckFeedbacks
      { s with vars := setVariableValues s.vars [("beatsPosition", .num (jsToNumber beats))] }
      t [.isInLoop, .isInActiveLoop]
  | .globalHumanPosition bars beats =>
    { s with vars := setVariableValues s.vars [("humanPosition", .str (humanPositionText bars beats))] }
  | .globalTempo tempo =>
    { s with vars := setVariableValues s.vars [("tempo", .num (jsToNumber tempo))] }
  | .globalIsPlaying v =>
    let s1 := debouncedCheckFeedbacks
      { s with vars := setVariableValues s.vars [("isPlaying", .bool (jsToBool v))] }
      t [.isPlaying]
    { s1 with
      status := if s.isPlayingConsumed then s1.status else .ok
      statusMessage := if s.isPlayingConsumed then s1.statusMessage else ""
      isConnected := if s.isPlayingConsumed then s1.isConnected else true
      isPlayingConsumed := true }
  | .globalTimeSignature numerator denominator =>
    { s with vars := setVariableValues s.vars [("timeSignature", .str (jsToString numerator ++ "/" ++ jsToString denominator))] }
  | .setlistName name =>
    { s with vars := setVariableValues s.vars [("setlistName", .str (jsToString name))] }
  | .setlistSongs songs =>
    debouncedCheckFeedbacks
      { s with songs := songs, vars := setVariableValues s.vars (songsPairs songs) }
      t [.canJumpToNextSong, .canJumpToPreviousSong]
  | .setlistSections sections =>
    debouncedCheckFeedbacks
      { s with sections := sections, vars := setVariableValues s.vars (sectionsPairs sections) }
      t [.canJumpToNextSection, .canJumpToPreviousSection]
  | .setlistActiveSongName v =>
    { s with vars := setVariableValues s.vars [("activeSongName", .str (jsToString v))] }
  | .setlistActiveSongIndex v =>
    debouncedCheckFeedbacks
      { s with vars := setVariableValues s.vars [("activeSongIndex", .num (jsToNumber v))] }
      t [.isCurrentSong, .canJumpToNextSong, .canJumpToPreviousSong]
  | .setlistActiveSectionName v =>
    { s with vars := setVariableValues s.vars [("activeSectionName", .str (jsToString v))] }
  | .setlistActiveSectionIndex v =>
    debouncedCheckFeedbacks
      { s with vars := setVariableValues s.vars [("activeSectionIndex", .num (jsToNumber v))] }
      t [.isCurrentSection, .canJumpToNextSection, .canJumpToPreviousSection]
  | .setlistQueuedName qSong qSection =>
    { s with vars := setVariableValues s.vars [("queuedSongName", .str (jsToString qSong)), ("queuedSectionName", .str (jsToString qSection))] }
  | .setlistQueuedIndex qSong qSection =>
    debouncedCheckFeedbacks
      { s with vars := setVariableValues s.vars [("queuedSongIndex", .num (jsToNumber qSong)), ("queuedSectionIndex", .num (jsToNumber qSection))] }
      t [.isQueuedSong, .isQueuedSection]
  | .setlistNextSongName v =>
    { s with vars := setVariableValues s.vars [("nextSongName", .str (jsToString v))] }
  | .setlistNextSongIndex v =>
    { s with vars := setVariableValues s.vars [("nextSongIndex", .num (jsToNumber v))] }
  | .setlistLoopEnabled v =>
    debouncedCheckFeedbacks
      { s with vars := setVariableValues s.vars [("loopEnabled", .bool (jsToBool v))] }
      t [.isInLoop, .isInActiveLoop]
  | .setlistLoopStart v =>
    debouncedCheckFeedbacks
      { s with vars := setVariableValues s.vars [("loopStart", .num (jsToNumber v))] }
      t [.isInLoop, .isInActiveLoop]
  | .setlistLoopEnd v =>
    debouncedCheckFeedbacks
      { s with vars := setVariableValues s.vars [("loopEnd", .num (jsToNumber v))] }
      t [.isInLoop, .isInActiveLoop]
  | .setlistIsCountingIn v =>
    { s with vars := setVariableValues s.vars [("isCountingIn", .bool (jsToBool v))] }
  | .playaudio12IsConnected v =>
    { s with vars := setVariableValues s.vars [("playAudio12Connected", .bool (jsToBool v))] }
  | .playaudio12Scene v =>
    { s with vars := setVariableValues s.vars [("playAudio12Scene", .num (jsToNumber v))] }
  | .settingsAutoplay v =>
    { s with vars := setVariableValues s.vars [("autoplay", .bool (jsToBool v))] }
  | .settingsSafeMode v =>
    { s with vars := setVariableValues s.vars [("safeMode", .bool (jsToBool v))] }
  | .settingsAlwaysStopOnSongEnd v =>
    { s with vars := setVariableValues s.vars [("alwaysStopOnSongEnd", .bool (jsToBool v))] }
  | .settingsAutoJumpToNextSong v =>
    { s with vars := setVariableValues s.vars [("autoJumpToNextSong", .bool (jsToBool v))] }
  | .settingsAutoLoopCurrentSection v =>
    { s with vars := setVariableValues s.vars [("autoLoopCurrentSection", .bool (jsToBool v))] }
  | .settingsCountIn v =>
    { s with vars := setVariableValues s.vars [("countIn", .bool (jsToBool v))] }
  | .settingsCountInSoloClick v =>
    { s with vars := setVariableValues s.vars [("countInSoloClick", .bool (jsToBool v))] }
  | .settingsCountInDuration v =>
    { s with vars := setVariableValues s.vars [("countInDuration", .num (jsToNumber v))] }
  | .settingsJumpMode v =>
    { s with vars := setVariableValues s.vars [("jumpMode", .str (jsToString v))] }
  | .heartbeat =>
    { s with
      status := if s.isConnected then s.status else .ok
      statusMessage := if s.isConnected then s.statusMessage else ""
      isConnected := true
      watchdogDeadline := some (t + 2500) }

/-- The `'listening'` event handler: sends `/subscribe` and `/getValues`
(outbound, not modelled) and arms the watchdog via `handleHeartbeat()`. -/
def handleListening (s : Session) (t : Nat) : Session :=
  handleHeartbeatFire s t

/-- Whether the host-address configuration check of `init` rejects the
config (`!config.clientHost` is JavaScript falsiness: the empty string). -/
def hostConfigInvalid (cfg : Config) : Prop :=
  cfg.serverHost ≠ "127.0.0.1" ∧ cfg.serverHost ≠ "localhost" ∧
    (cfg.clientHost = "" ∨ cfg.clientHost = "127.0.0.1" ∨ cfg.clientHost = "localhost")

instance (cfg : Config) : Decidable (hostConfigInvalid cfg) := by
  unfold hostConfigInvalid
  infer_instance

/-- `async init(config)`: stores the config; rejects a bad host combination
with a blocking `BadConfig` status before anything is bound; otherwise goes
`Connecting`, parses the client port (`Number(...)`; a `NaN` port throws,
which the surrounding `catch` reports as `ConnectionFailure` — still before
any bind), and on success binds the server and client, registers the
listeners, and starts a fresh watchdog closure (`isConnected = false`) and a
fresh `once` handler for `/global/isPlaying`.  The mirrored `songs` and
`sections` fields and the variable store are not touched by `init`. -/
def init (s : Session) (cfg : Config) : Session :=
  let s0 := { s with config := cfg }
  if hostConfigInvalid cfg then
    { s0 with
      status := .badConfig
      statusMessage := "You must provide an IP address for AbleSet to send updates to when AbleSet isn't running on this machine, and it can't be 127.0.0.1 or localhost." }
  else
    let s1 := { s0 with status := .connecting, statusMessage := "" }
    match jsParseNumber cfg.clientPort with
    | none =>
      { s1 with
        status := .connectionFailure
        statusMessage := "Client port is not valid: " ++ cfg.clientPort }
    | some _ =>
      { s1 with
        serverBound := true
        clientBound := true
        isConnected := false
        isPlayingConsumed := false
        watchdogDeadline := none }

/-- `async destroy()`: sends `/unsubscribe` (outbound, not modelled) and
closes the client and server transports. -/
def destroy (s : Session) : Session :=
  { s with serverBound := false, clientBound := false }

/-- `async configUpdated(config)`: stores the config, destroys the session
and re-initializes it on the same instance. -/
def configUpdated (s : Session) (cfg : Config) : Session :=
  init (destroy { s with config := cfg }) cfg

/-! ### Feedback callbacks (`updateFeedbacks`) -/

/-- The `Feedback.CanJumpToNextSong` callback:
`Number(this.getVariableValue('activeSongIndex')) < this.songs.length - 1`. -/
def canJumpToNextSongCallback (s : Session) : Bool :=
  jsNumLt (jsToNumber (getVariableValue s.vars "activeSongIndex"))
    (some ((s.songs.length : Int) - 1))

/-- The `Feedback.IsQueuedSong` callback:
`getVariableValue('queuedSongIndex') !== '' && Number(...) === Number(songNumber) - 1`. -/
def isQueuedSongCallback (s : Session) (songNumber : Int) : Bool :=
  !(jsStrictEq (getVariableValue s.vars "queuedSongIndex") (.str "")) &&
    jsNumEq (jsToNumber (getVariableValue s.vars "queuedSongIndex")) (some (songNumber - 1))

/-- The `Feedback.IsQueuedSection` callback. -/
def isQueuedSectionCallback (s : Session) (sectionNumber : Int) : Bool :=
  !(jsStrictEq (getVariableValue s.vars "queuedSectionIndex") (.str "")) &&
    jsNumEq (jsToNumber (getVariableValue s.vars "queuedSectionIndex")) (some (sectionNumber - 1))

/-- The variable ids declared by `updateVariableDefinitions` (the commented
color ids of the source are not declared). -/
def variableDefinitionIds : List String :=
  ["beatsPosition", "humanPosition", "tempo", "isPlaying", "timeSignature",
    "setlistName", "activeSongName", "activeSongIndex", "queuedSongName", "queuedSongIndex",
    "activeSectionName", "activeSectionIndex", "queuedSectionName", "queuedSectionIndex",
    "nextSongName", "nextSongIndex"] ++
  (makeRange PRESET_COUNT).map (fun i => songNameKey (i + 1)) ++
  (makeRange PRESET_COUNT).map (fun i => sectionNameKey (i + 1)) ++
  ["loopEnabled", "loopStart", "loopEnd", "isCountingIn",
    "playAudio12Connected", "playAudio12Scene",
    "autoplay", "safeMode", "alwaysStopOnSongEnd", "autoJumpToNextSong",
    "autoLoopCurrentSection", "countIn", "countInSoloClick", "countInDuration", "jumpMode"]

/-- Recognizes a per-index song-name variable id: prefix `song`, suffix
`Name`. -/
def isSongNameId (k : String) : Bool :=
  "song".data.isPrefixOf k.data && "Name".data.isSuffixOf k.data

/-- Recognizes a per-index section-name variable id. -/
def isSectionNameId (k : String) : Bool :=
  "section".data.isPrefixOf k.data && "Name".data.isSuffixOf k.data

/-! ### Shared helper lemmas -/

theorem jsStrictEq_empty_str (v : JsVal) : jsStrictEq v (.str "") = true ↔ v = .str "" := by
  cases v with
  | undef => simp [jsStrictEq]
  | num o => cases o <;> simp [jsStrictEq]
  | str a => simp [jsStrictEq]
  | bool b => simp [jsStrictEq]

theorem jsStrictEq_empty_str_false (v : JsVal) :
    jsStrictEq v (.str "") = false ↔ v ≠ .str "" := by
  rw [← Bool.not_eq_true, not_iff_not]
  exact jsStrictEq_empty_str v

theorem jsNumEq_some_iff (a : Option Int) (m : Int) :
    jsNumEq a (some m) = true ↔ a = some m := by
  cases a <;> simp [jsNumEq]

theorem getD_take_of_lt {α : Type} (l : List α) (n i : Nat) (d : α) (h : i < n) :
    (l.take n).getD i d = l.getD i d := by
  simp [List.getD_eq_getElem?_getD, List.getElem?_take_of_lt h]

theorem getD_eq_default_of_le {α : Type} (l : List α) (i : Nat) (d : α) (h : l.length ≤ i) :
    l.getD i d = d := by
  simp [List.getD_eq_getElem?_getD, List.getElem?_eq_none h]

theorem songsPairs_keys (l : List String) :
    (songsPairs l).map Prod.fst = (makeRange PRESET_COUNT).map (fun i => songNameKey (i + 1)) := by
  simp [songsPairs, List.map_map, Function.comp]

theorem sectionsPairs_keys (l : List String) :
    (sectionsPairs l).map Prod.fst =
      (makeRange PRESET_COUNT).map (fun i => sectionNameKey (i + 1)) := by
  simp [sectionsPairs, List.map_map, Function.comp]

theorem songNameKeys_nodup :
    ((makeRange PRESET_COUNT).map (fun i => songNameKey (i + 1))).Nodup := by decide

theorem sectionNameKeys_nodup :
    ((makeRange PRESET_COUNT).map (fun i => sectionNameKey (i + 1))).Nodup := by decide

theorem mem_songsPairs (l : List String) {i : Nat} (h : i < PRESET_COUNT) :
    (songNameKey (i + 1), JsVal.str (l.getD i "")) ∈ songsPairs l :=
  List.mem_map.mpr ⟨i, List.mem_range.mpr h, rfl⟩

theorem mem_sectionsPairs (l : List String) {i : Nat} (h : i < PRESET_COUNT) :
    (sectionNameKey (i + 1), JsVal.str (l.getD i "")) ∈ sectionsPairs l :=
  List.mem_map.mpr ⟨i, List.mem_range.mpr h, rfl⟩

/-! ### The claims -/

/-- C1, counterexample: with the connection Confirmed (status Ok) and the
watchdog scheduled to declare disconnection at time 1000, handling a
recognized `/global/tempo` message at time 900 leaves the watchdog deadline
at 1000 — it is not pushed back to 900 + 2500 — and the watchdog then still
declares Disconnected at 1000.  So it is false that every recognized inbound
message re-arms the 2500 ms watchdog: only `/heartbeat` calls
`handleHeartbeat()`. -/
theorem C1_counterexample :
    (handleOsc { freshSession with
        status := .ok, isConnected := true, isPlayingConsumed := true,
        watchdogDeadline := some 1000 } 900
      (.globalTempo (.num (some 120)))).watchdogDeadline = some 1000 ∧
    (some 1000 ≠ some (900 + 2500)) ∧
    (handleHeartbeatTimeout
      (handleOsc { freshSession with
          status := .ok, isConnected := true, isPlayingConsumed := true,
          watchdogDeadline := some 1000 } 900
        (.globalTempo (.num (some 120)))) 1000).status = .disconnected := by
  exact ⟨rfl, by decide, rfl⟩

/-- C1, amended: only the `/heartbeat` message re-arms the 2500 ms watchdog
(its handler schedules the disconnect declaration at `t + 2500`); handling
any other recognized message leaves the watchdog deadline unchanged; when
the watchdog fires at its deadline, the monitor reports Disconnected with
cause "Didn't receive a heartbeat in a while". -/
theorem C1_watchdog_rearm (s : Session) (t : Nat) :
    (handleOsc s t .heartbeat).watchdogDeadline = some (t + 2500) ∧
    (∀ m : OscMessage, m ≠ .heartbeat →
      (handleOsc s t m).watchdogDeadline = s.watchdogDeadline) ∧
    (∀ d, s.watchdogDeadline = some d →
      (handleHeartbeatTimeout s d).status = .disconnected ∧
      (handleHeartbeatTimeout s d).statusMessage = "Didn't receive a heartbeat in a while" ∧
      (handleHeartbeatTimeout s d).isConnected = false) := by
  refine ⟨rfl, ?_, ?_⟩
  · intro m hm
    cases m <;> first | rfl | exact absurd rfl hm
  · intro d hd
    simp [handleHeartbeatTimeout, hd]

/-- C1, witness for the amended theorem at a concrete session and time. -/
theorem C1_watchdog_rearm_witness :
    (handleOsc { freshSession with watchdogDeadline := some 77 } 3
      .heartbeat).watchdogDeadline = some (3 + 2500) ∧
    (handleOsc { freshSession with watchdogDeadline := some 77 } 3
      (.globalTempo (.num (some 120)))).watchdogDeadline = some 77 ∧
    (handleHeartbeatTimeout { freshSession with watchdogDeadline := some 77 } 77).status =
      .disconnected := by
  obtain ⟨h1, h2, h3⟩ := C1_watchdog_rearm { freshSession with watchdogDeadline := some 77 } 3
  exact ⟨h1, h2 _ (by decide), (h3 77 rfl).1⟩

/-- C2, counterexample: once the session's first `/global/isPlaying` message
has been consumed by the `once`-registered status handler, a later
`/global/isPlaying` message received while Disconnected does not restore the
Ok status — only `/heartbeat` does.  So it is false that any recognized
liveness-bearing path (such as play-state) recovers the connection. -/
theorem C2_counterexample :
    (handleOsc { freshSession with
        status := .disconnected,
        statusMessage := "Didn't receive a heartbeat in a while",
        isPlayingConsumed := true } 5
      (.globalIsPlaying (.bool true))).status = .disconnected ∧
    InstanceStatus.disconnected ≠ InstanceStatus.ok := by
  exact ⟨rfl, by decide⟩

/-- C2, amended: after the monitor is Disconnected, the next `/heartbeat`
message automatically restores the Ok status and the connected flag, with no
explicit reconnect operation; a `/global/isPlaying` message restores Ok only
when it is the session's first one (the `once`-registered status handler has
not yet been consumed). -/
theorem C2_reconnect (s : Session) (t : Nat) :
    (s.isConnected = false →
      (handleOsc s t .heartbeat).status = .ok ∧
      (handleOsc s t .heartbeat).isConnected = true) ∧
    (s.isPlayingConsumed = false → ∀ v : JsVal,
      (handleOsc s t (.globalIsPlaying v)).status = .ok ∧
      (handleOsc s t (.globalIsPlaying v)).isConnected = true) := by
  constructor
  · intro h
    constructor <;> simp [handleOsc, h]
  · intro h v
    constructor <;> simp [handleOsc, h, debouncedCheckFeedbacks]

/-- C2, witness for the amended theorem: a fresh (never-connected,
never-confirmed) disconnected session recovers via `/heartbeat`, and via a
first `/global/isPlaying`. -/
theorem C2_reconnect_witness :
    (handleOsc { freshSession with status := .disconnected } 9 .heartbeat).status = .ok ∧
    (handleOsc { freshSession with status := .disconnected } 9
      (.globalIsPlaying (.bool false))).status = .ok := by
  exact ⟨((C2_reconnect { freshSession with status := .disconnected } 9).1 rfl).1,
    ((C2_reconnect { freshSession with status := .disconnected } 9).2 rfl (.bool false)).1⟩

/-- C3 (spec-modelled: `debounceGather` is imported from the absent
`src/utils/debounce`): for any burst of `fire` calls within one window — the
first at `t0`, the rest at times in `[t0, t0 + D)` — the window's deadline is
anchored at `t0 + D` (delay after the *first* call), the accumulated batch is
the first-occurrence deduplication of the fired keys (each distinct key
exactly once, ordered by first occurrence), the timer firing at `t0 + D`
delivers exactly that batch once and clears the window, and an idle window
delivers nothing. -/
theorem C3_debounceGather {κ : Type} [DecidableEq κ] (D t0 : Nat) (k0 : κ)
    (rest : List (Nat × κ))
    (hwindow : ∀ tk ∈ rest, t0 ≤ tk.1 ∧ tk.1 < t0 + D) :
    (gatherFires D idleGather ((t0, k0) :: rest)).deadline = some (t0 + D) ∧
    (gatherFires D idleGather ((t0, k0) :: rest)).keys =
      dedupFirst (k0 :: rest.map Prod.snd) ∧
    (gatherFires D idleGather ((t0, k0) :: rest)).keys.Nodup ∧
    (∀ k, k ∈ (gatherFires D idleGather ((t0, k0) :: rest)).keys ↔
      k ∈ k0 :: rest.map Prod.snd) ∧
    (gatherFires D idleGather ((t0, k0) :: rest)).keys.Pairwise
      (fun a b => (k0 :: rest.map Prod.snd).indexOf a <
        (k0 :: rest.map Prod.snd).indexOf b) ∧
    gatherExpireAt (gatherFires D idleGather ((t0, k0) :: rest)) (t0 + D) =
      (some (gatherFires D idleGather ((t0, k0) :: rest)).keys, idleGather) ∧
    gatherExpireAt (idleGather : GatherState κ) (t0 + D) = (none, idleGather) := by
  have hrun : gatherFires D idleGather ((t0, k0) :: rest) =
      ⟨gatherRun [k0] (rest.map Prod.snd), some (t0 + D)⟩ := by
    show gatherFires D (gatherFire D idleGather t0 k0) rest = _
    exact gatherFires_open D rest (gatherFire D idleGather t0 k0) (t0 + D) rfl
  have hkeys : gatherRun [k0] (rest.map Prod.snd) = dedupFirst (k0 :: rest.map Prod.snd) := by
    rw [← gatherRun_nil_eq_dedupFirst]
    simp [gatherRun, gatherInsert]
  rw [hrun]
  refine ⟨rfl, hkeys, ?_, ?_, ?_, ?_, ?_⟩
  · rw [hkeys]; exact nodup_dedupFirst _
  · intro k; rw [hkeys]; exact mem_dedupFirst
  · rw [hkeys]; exact pairwise_indexOf_dedupFirst _
  · simp [gatherExpireAt, idleGather]
  · simp [gatherExpireAt, idleGather]

/-- C3, witness: a concrete burst of feedback keys through the 50 ms window
of `debouncedCheckFeedbacks`. -/
theorem C3_debounceGather_witness :
    (gatherFires 50 idleGather
      [(100, Feedback.isInLoop), (110, Feedback.isInActiveLoop),
        (130, Feedback.isInLoop)]).deadline = some (100 + 50) ∧
    (gatherFires 50 idleGather
      [(100, Feedback.isInLoop), (110, Feedback.isInActiveLoop),
        (130, Feedback.isInLoop)]).keys = [Feedback.isInLoop, Feedback.isInActiveLoop] ∧
    (gatherFires 50 idleGather
      [(100, Feedback.isInLoop), (110, Feedback.isInActiveLoop),
        (130, Feedback.isInLoop)]).keys.Nodup := by
  have h := C3_debounceGather 50 100 Feedback.isInLoop
    [(110, .isInActiveLoop), (130, .isInLoop)] (by decide)
  exact ⟨h.1, by decide, h.2.2.1⟩

/-- C4, counterexample: a non-numeric client port (`"abc"`) aborts `init`
before any socket is bound, but the thrown error is caught and reported as
`InstanceStatus.ConnectionFailure` — a transport-failure status, not the
blocking configuration-class status (`BadConfig`) the claim asserts. -/
theorem C4_counterexample :
    (init freshSession ⟨"127.0.0.1", "abc", "127.0.0.1"⟩).status = .connectionFailure ∧
    (init freshSession ⟨"127.0.0.1", "abc", "127.0.0.1"⟩).serverBound = false ∧
    InstanceStatus.connectionFailure ≠ InstanceStatus.badConfig := by
  refine ⟨by decide, by decide, by decide⟩

/-- C4, amended: an invalid/missing client-host combination is rejected
before anything is bound with the blocking `BadConfig` status and a
human-readable cause; a non-numeric client port also aborts `init` before
any socket is bound and with a human-readable cause, but it is surfaced as
`ConnectionFailure` (a transport-failure status), not as a
configuration-class status.  Neither path retries. -/
theorem C4_config_errors (s : Session) (cfg : Config) :
    (hostConfigInvalid cfg →
      (init s cfg).status = .badConfig ∧
      (init s cfg).serverBound = s.serverBound ∧
      (init s cfg).clientBound = s.clientBound) ∧
    (¬hostConfigInvalid cfg → jsParseNumber cfg.clientPort = none →
      (init s cfg).status = .connectionFailure ∧
      (init s cfg).statusMessage = "Client port is not valid: " ++ cfg.clientPort ∧
      (init s cfg).serverBound = s.serverBound ∧
      (init s cfg).clientBound = s.clientBound) := by
  constructor
  · intro h
    refine ⟨?_, ?_, ?_⟩ <;> simp [init, h]
  · intro h hp
    refine ⟨?_, ?_, ?_, ?_⟩ <;> simp [init, h, hp]

/-- C4, witness for the amended theorem at two concrete configs. -/
theorem C4_config_errors_witness :
    (init freshSession ⟨"", "39052", "10.0.0.5"⟩).status = .badConfig ∧
    (init freshSession ⟨"127.0.0.1", "xyz", "127.0.0.1"⟩).status = .connectionFailure := by
  exact ⟨((C4_config_errors freshSession ⟨"", "39052", "10.0.0.5"⟩).1 (by decide)).1,
    ((C4_config_errors freshSession ⟨"127.0.0.1", "xyz", "127.0.0.1"⟩).2
      (by decide) (by decide)).1⟩

/-- C5, counterexample: re-initializing a session via `configUpdated`
(destroy, then `init` on the same instance) does not reset the mirrored
`songs` list: a session holding `songs = ["A", "B"]` still reads
`["A", "B"]` after re-initialization, before the peer has resent anything —
refuting the claim that every mirrored attribute is re-created on
re-initialization. -/
theorem C5_counterexample :
    (configUpdated { freshSession with
        songs := ["A", "B"], sections := ["Verse"], status := .ok,
        serverBound := true, clientBound := true,
        isConnected := true, isPlayingConsumed := true }
      ⟨"127.0.0.1", "39052", "127.0.0.1"⟩).songs = ["A", "B"] ∧
    (["A", "B"] : List String) ≠ [] := by
  exact ⟨by decide, by decide⟩

/-- C5, amended: re-initialization via `configUpdated` preserves the previous
session's mirrored `songs` and `sections` lists and the variable store —
they are reset only at instance construction, and overwritten only when the
peer resends them; what a successful re-init does re-create is the
connection bookkeeping (`isConnected`, the `once` consumption flag). -/
theorem C5_reinit_preserves (s : Session) (cfg : Config) :
    (configUpdated s cfg).songs = s.songs ∧
    (configUpdated s cfg).sections = s.sections ∧
    (configUpdated s cfg).vars = s.vars ∧
    (¬hostConfigInvalid cfg → ∀ p, jsParseNumber cfg.clientPort = some p →
      (configUpdated s cfg).isConnected = false ∧
      (configUpdated s cfg).isPlayingConsumed = false) := by
  refine ⟨?_, ?_, ?_, ?_⟩
  · simp only [configUpdated, init, destroy]
    split
    · rfl
    · split <;> rfl
  · simp only [configUpdated, init, destroy]
    split
    · rfl
    · split <;> rfl
  · simp only [configUpdated, init, destroy]
    split
    · rfl
    · split <;> rfl
  · intro h p hp
    simp [configUpdated, init, destroy, h, hp]

/-- C5, witness for the amended theorem with a concrete prior session and a
valid new config. -/
theorem C5_reinit_preserves_witness :
    (configUpdated { freshSession with songs := ["A"] }
      ⟨"127.0.0.1", "39052", "127.0.0.1"⟩).songs = ["A"] ∧
    (configUpdated { freshSession with songs := ["A"] }
      ⟨"127.0.0.1", "39052", "127.0.0.1"⟩).isConnected = false := by
  have h := C5_reinit_preserves { freshSession with songs := ["A"] }
    ⟨"127.0.0.1", "39052", "127.0.0.1"⟩
  exact ⟨h.1, (h.2.2.2 (by decide) 39052 (by decide)).1⟩

/-- C6, counterexample: with an empty `songs` list and a stored
`activeSongIndex` of `-5`, the `CanJumpToNextSong` callback evaluates
`-5 < 0 - 1` and returns `true` — refuting the claim that the feedback is
false whenever the songs list is empty. -/
theorem C6_counterexample :
    canJumpToNextSongCallback { freshSession with
      songs := [], vars := [("activeSongIndex", JsVal.num (some (-5)))] } = true ∧
    ({ freshSession with
      songs := ([] : List String),
      vars := [("activeSongIndex", JsVal.num (some (-5)))] } : Session).songs = [] := by
  exact ⟨by decide, rfl⟩

/-- C6, amended: `CanJumpToNextSong` is true exactly when the stored
`activeSongIndex` is an actual number `n` (not unknown/`NaN`) with
`n < len(songs) - 1`, the comparison taken over the integers (so the length
of an empty list contributes `-1`); in particular it is false when the index
is unknown, false when the index equals `len(songs) - 1`, and false for any
index at or past the end of the list — but a negative stored index can make
it true even when `songs` is empty. -/
theorem C6_canJumpToNextSong (s : Session) :
    canJumpToNextSongCallback s = true ↔
      ∃ n : Int, jsToNumber (getVariableValue s.vars "activeSongIndex") = some n ∧
        n < (s.songs.length : Int) - 1 := by
  unfold canJumpToNextSongCallback
  cases h : jsToNumber (getVariableValue s.vars "activeSongIndex") with
  | none => simp [jsNumLt, h]
  | some k => simp [jsNumLt, h]

/-- C6, witness for the amended theorem at a concrete state. -/
theorem C6_canJumpToNextSong_witness :
    canJumpToNextSongCallback { freshSession with
      songs := ["A", "B"], vars := [("activeSongIndex", JsVal.num (some 0))] } = true := by
  exact (C6_canJumpToNextSong _).mpr ⟨0, by decide, by decide⟩

/-- C7: `IsQueuedSong(n)` returns true exactly when the stored
`queuedSongIndex` is not the empty-string sentinel and its numeric value
equals `n - 1`; a never-set (undefined) queued index makes the predicate
false (its `Number(...)` is `NaN`, which equals nothing) rather than
raising.  Analogously for `IsQueuedSection(n)`. -/
theorem C7_isQueuedSong (s : Session) (n : Int) :
    (isQueuedSongCallback s n = true ↔
      (getVariableValue s.vars "queuedSongIndex" ≠ .str "" ∧
        jsToNumber (getVariableValue s.vars "queuedSongIndex") = some (n - 1))) ∧
    (getVariableValue s.vars "queuedSongIndex" = .undef →
      isQueuedSongCallback s n = false) ∧
    (isQueuedSectionCallback s n = true ↔
      (getVariableValue s.vars "queuedSectionIndex" ≠ .str "" ∧
        jsToNumber (getVariableValue s.vars "queuedSectionIndex") = some (n - 1))) ∧
    (getVariableValue s.vars "queuedSectionIndex" = .undef →
      isQueuedSectionCallback s n = false) := by
  refine ⟨?_, ?_, ?_, ?_⟩
  · rw [isQueuedSongCallback, Bool.and_eq_true, Bool.not_eq_true',
      jsStrictEq_empty_str_false, jsNumEq_some_iff]
  · intro h
    simp [isQueuedSongCallback, h, jsToNumber, jsNumEq]
  · rw [isQueuedSectionCallback, Bool.and_eq_true, Bool.not_eq_true',
      jsStrictEq_empty_str_false, jsNumEq_some_iff]
  · intro h
    simp [isQueuedSectionCallback, h, jsToNumber, jsNumEq]

/-- C7, witness: a matching queued index, and a never-set queued index. -/
theorem C7_isQueuedSong_witness :
    isQueuedSongCallback { freshSession with
      vars := [("queuedSongIndex", JsVal.num (some 2))] } 3 = true ∧
    isQueuedSongCallback freshSession 3 = false := by
  refine ⟨?_, (C7_isQueuedSong freshSession 3).2.1 rfl⟩
  exact ((C7_isQueuedSong { freshSession with
    vars := [("queuedSongIndex", JsVal.num (some 2))] } 3).1).mpr ⟨by decide, by decide⟩

/-- C8: a `/setlist/songs` message replaces the mirrored `songs` list
wholesale — no element-wise merge with the previous list — and every
per-index song-name variable within the preset window is recomputed from
the new list alone, with the empty string for every index at or beyond the
new list's length, whatever the previous (possibly longer) list held. -/
theorem C8_songs_wholesale (s : Session) (t : Nat) (l : List String) (i : Nat)
    (h : i < PRESET_COUNT) :
    (handleOsc s t (.setlistSongs l)).songs = l ∧
    getVariableValue (handleOsc s t (.setlistSongs l)).vars (songNameKey (i + 1)) =
      .str (l.getD i "") ∧
    (l.length ≤ i →
      getVariableValue (handleOsc s t (.setlistSongs l)).vars (songNameKey (i + 1)) =
        .str "") := by
  have hnd : ((songsPairs l).map Prod.fst).Nodup := by
    rw [songsPairs_keys]; exact songNameKeys_nodup
  have hget : getVariableValue (handleOsc s t (.setlistSongs l)).vars (songNameKey (i + 1)) =
      .str (l.getD i "") := by
    show getVariableValue (setVariableValues s.vars (songsPairs l)) (songNameKey (i + 1)) = _
    exact getVariableValue_setVariableValues_mem hnd (mem_songsPairs l h) s.vars
  refine ⟨rfl, hget, ?_⟩
  intro hlen
  rw [hget, getD_eq_default_of_le l i "" hlen]

/-- C8, witness: `["A", "B"]` then `["X"]` — song 2's variable is recomputed
from the new one-element list and is empty, not `"B"`. -/
theorem C8_songs_wholesale_witness :
    getVariableValue (handleOsc (handleOsc freshSession 0 (.setlistSongs ["A", "B"])) 1
      (.setlistSongs ["X"])).vars (songNameKey 2) = .str "" ∧
    (handleOsc (handleOsc freshSession 0 (.setlistSongs ["A", "B"])) 1
      (.setlistSongs ["X"])).songs = ["X"] := by
  have h := C8_songs_wholesale (handleOsc freshSession 0 (.setlistSongs ["A", "B"])) 1
    ["X"] 1 (by decide)
  exact ⟨h.2.2 (by decide), h.1⟩

/-- C9: the `/global/isPlaying` status handler is registered with
`once`-semantics, so it confirms the connection at most once per session:
after it has been consumed, a further `/global/isPlaying` message updates
only the `isPlaying` variable — status, connected flag and watchdog deadline
are untouched; the first message of a session does set status Ok; and with
the `once` handler consumed, no message other than `/heartbeat` ever changes
the status or the connected flag. -/
theorem C9_isPlaying_once (s : Session) (t : Nat) (v : JsVal) :
    (s.isPlayingConsumed = true →
      (handleOsc s t (.globalIsPlaying v)).status = s.status ∧
      (handleOsc s t (.globalIsPlaying v)).statusMessage = s.statusMessage ∧
      (handleOsc s t (.globalIsPlaying v)).isConnected = s.isConnected ∧
      (handleOsc s t (.globalIsPlaying v)).watchdogDeadline = s.watchdogDeadline ∧
      (handleOsc s t (.globalIsPlaying v)).vars =
        setVariableValues s.vars [("isPlaying", .bool (jsToBool v))]) ∧
    (s.isPlayingConsumed = false →
      (handleOsc s t (.globalIsPlaying v)).status = .ok ∧
      (handleOsc s t (.globalIsPlaying v)).isConnected = true) ∧
    (handleOsc s t (.globalIsPlaying v)).isPlayingConsumed = true ∧
    (∀ m : OscMessage, m ≠ .heartbeat → s.isPlayingConsumed = true →
      (handleOsc s t m).status = s.status ∧
      (handleOsc s t m).isConnected = s.isConnected) := by
  refine ⟨?_, ?_, rfl, ?_⟩
  · intro h
    refine ⟨?_, ?_, ?_, rfl, rfl⟩ <;> simp [handleOsc, h, debouncedCheckFeedbacks]
  · intro h
    constructor <;> simp [handleOsc, h, debouncedCheckFeedbacks]
  · intro m hm h
    cases m <;> first
      | exact ⟨rfl, rfl⟩
      | exact absurd rfl hm
      | constructor <;> simp [handleOsc, h, debouncedCheckFeedbacks]

/-- C9, witness: a consumed session stays Disconnected on a later
`/global/isPlaying`; a fresh session is confirmed by its first one. -/
theorem C9_isPlaying_once_witness :
    (handleOsc { freshSession with isPlayingConsumed := true, status := .disconnected } 4
      (.globalIsPlaying (.bool true))).status = .disconnected ∧
    (handleOsc freshSession 4 (.globalIsPlaying (.bool true))).status = .ok := by
  exact ⟨((C9_isPlaying_once { freshSession with
      isPlayingConsumed := true, status := .disconnected } 4 (.bool true)).1 rfl).1,
    ((C9_isPlaying_once freshSession 4 (.bool true)).2.1 rfl).1⟩

/-- C10: per-index song- and section-name variables exist exactly for
indices 1 through `PRESET_COUNT` = 32 (the ids declared by
`updateVariableDefinitions` contain each per-index song and section name id
for `i` in that range and no other such id); a `/setlist/songs` or
`/setlist/sections` message writes exactly those 32 keys, its effect on the
variable store depends only on the list's first 32 entries (later entries
are silently dropped from every per-index view), and a shorter list pads the
remaining indices with empty strings. -/
theorem C10_preset_window (s : Session) (t : Nat) (l : List String) (i : Nat) :
    (i < PRESET_COUNT →
      songNameKey (i + 1) ∈ variableDefinitionIds ∧
      sectionNameKey (i + 1) ∈ variableDefinitionIds) ∧
    variableDefinitionIds.countP isSongNameId = PRESET_COUNT ∧
    variableDefinitionIds.countP isSectionNameId = PRESET_COUNT ∧
    (songsPairs l).map Prod.fst = (makeRange PRESET_COUNT).map (fun j => songNameKey (j + 1)) ∧
    (handleOsc s t (.setlistSongs l)).vars =
      (handleOsc s t (.setlistSongs (l.take PRESET_COUNT))).vars ∧
    (handleOsc s t (.setlistSections l)).vars =
      (handleOsc s t (.setlistSections (l.take PRESET_COUNT))).vars ∧
    (l.length ≤ i → i < PRESET_COUNT →
      getVariableValue (handleOsc s t (.setlistSections l)).vars (sectionNameKey (i + 1)) =
        .str "") := by
  have htake : ∀ j, j ∈ makeRange PRESET_COUNT →
      l.getD j "" = (l.take PRESET_COUNT).getD j "" := by
    intro j hj
    exact (getD_take_of_lt l PRESET_COUNT j "" (List.mem_range.mp hj)).symm
  have hsp : songsPairs l = songsPairs (l.take PRESET_COUNT) := by
    apply List.map_congr_left
    intro j hj
    rw [htake j hj]
  have hscp : sectionsPairs l = sectionsPairs (l.take PRESET_COUNT) := by
    apply List.map_congr_left
    intro j hj
    rw [htake j hj]
  refine ⟨?_, by decide, by decide, songsPairs_keys l, ?_, ?_, ?_⟩
  · intro h
    constructor
    · simp only [variableDefinitionIds, List.mem_append]
      refine Or.inl (Or.inl (Or.inr ?_))
      exact List.mem_map.mpr ⟨i, List.mem_range.mpr h, rfl⟩
    · simp only [variableDefinitionIds, List.mem_append]
      refine Or.inl (Or.inr ?_)
      exact List.mem_map.mpr ⟨i, List.mem_range.mpr h, rfl⟩
  · show setVariableValues s.vars (songsPairs l) =
      setVariableValues s.vars (songsPairs (l.take PRESET_COUNT))
    rw [hsp]
  · show setVariableValues s.vars (sectionsPairs l) =
      setVariableValues s.vars (sectionsPairs (l.take PRESET_COUNT))
    rw [hscp]
  · intro hlen h
    have hnd : ((sectionsPairs l).map Prod.fst).Nodup := by
      rw [sectionsPairs_keys]; exact sectionNameKeys_nodup
    have hget : getVariableValue (setVariableValues s.vars (sectionsPairs l))
        (sectionNameKey (i + 1)) = .str (l.getD i "") :=
      getVariableValue_setVariableValues_mem hnd (mem_sectionsPairs l h) s.vars
    show getVariableValue (setVariableValues s.vars (sectionsPairs l))
      (sectionNameKey (i + 1)) = .str ""
    rw [hget, getD_eq_default_of_le l i "" hlen]

/-- C10, witness: song 32 exists, song 33 does not; a one-element sections
list pads section 2 with the empty string. -/
theorem C10_preset_window_witness :
    songNameKey 32 ∈ variableDefinitionIds ∧
    songNameKey 33 ∉ variableDefinitionIds ∧
    getVariableValue (handleOsc freshSession 0 (.setlistSections ["S"])).vars
      (sectionNameKey 2) = .str "" := by
  have h31 := C10_preset_window freshSession 0 ["S"] 31
  have h1 := C10_preset_window freshSession 0 ["S"] 1
  exact ⟨(h31.1 (by decide)).1, by decide, h1.2.2.2.2.2.2 (by decide) (by decide)⟩

end AbleSet
